import Mathlib

/-!
Verification development for the `tracking_system` Solana/Anchor program
(`programs/tracking/src/lib.rs`).

The program is shallowly embedded as a state machine.  On-chain accounts are
modelled as total functions from PDA seed byte strings to account contents
(`init_if_needed` semantics: an account that was never written holds the
all-zero default).  The four account namespaces touched by `add_tracking_data`
(`tracking_data`, `tracker_stats`, `tracker_stats_list`, `tracker_streak`)
are kept as four separate stores, mirroring the distinct seed prefixes.

Integer conventions: `u32`/`u64` values are modelled as `Nat`; arithmetic that
can wrap in the source (release-profile Rust) carries an explicit
`% 4294967296` (u32) or `% 18446744073709551616` (u64).  The owner `Pubkey` is
modelled as a `Nat`, with `0` playing the role of `Pubkey::default()`.
-/

namespace Tracking

/-- Bytes of an ASCII string literal, as used for the constant seed prefixes
(`b"tracking_data"` and friends). -/
def strBytes (s : String) : List Nat :=
  s.data.map Char.toNat

/-- Seeds of the `tracking_data` PDA:
`[b"tracking_data", user.key().as_ref(), &[tracker_id as u8; 13]]`.
The `as u8` cast is `% 256`. -/
def trackingDataSeed (user tracker_id : Nat) : List (List Nat) :=
  [strBytes "tracking_data", [user], List.replicate 13 (tracker_id % 256)]

/-- Seeds of the `tracker_stats` PDA:
`[b"tracker_stats", &[tracker_id as u8; 13], &[((date / 86400) * 86400) as u8; 13]]`. -/
def trackerStatsSeed (tracker_id date : Nat) : List (List Nat) :=
  [strBytes "tracker_stats", List.replicate 13 (tracker_id % 256),
    List.replicate 13 (((date / 86400) * 86400) % 256)]

/-- Seeds of the `tracker_stats_list` PDA:
`[b"tracker_stats_list", &[tracker_id as u8; 18]]`. -/
def trackerStatsListSeed (tracker_id : Nat) : List (List Nat) :=
  [strBytes "tracker_stats_list", List.replicate 18 (tracker_id % 256)]

/-- Seeds of the `tracker_streak` PDA:
`[b"tracker_streak", user.key().as_ref(), &[tracker_id as u8; 13]]`. -/
def trackerStreakSeed (user tracker_id : Nat) : List (List Nat) :=
  [strBytes "tracker_streak", [user], List.replicate 13 (tracker_id % 256)]

/-- `struct Track { date: u64, count: u32 }` -/
structure Track where
  date : Nat
  count : Nat
deriving DecidableEq

/-- `struct TrackingData { user: Pubkey, tracker_id: u32, tracks: Vec<Track> }` -/
structure TrackingData where
  user : Nat
  tracker_id : Nat
  tracks : List Track
deriving DecidableEq

/-- `struct Tracker { id: u32, title: String, description: String }` -/
structure Tracker where
  id : Nat
  title : String
  description : String
deriving DecidableEq

/-- `struct TrackerStatsAccount { tracker_id: u32, date: u64, total_count: u32, unique_users: u32 }` -/
structure TrackerStatsAccount where
  tracker_id : Nat
  date : Nat
  total_count : Nat
  unique_users : Nat
deriving DecidableEq

/-- `struct TrackerStats { total_count: u32, unique_users: u32 }` (view result) -/
structure TrackerStats where
  total_count : Nat
  unique_users : Nat
deriving DecidableEq

/-- `struct TrackerStatsList { tracker_id: u32, stats: Vec<TrackerStatsAccount> }` -/
structure TrackerStatsList where
  tracker_id : Nat
  stats : List TrackerStatsAccount
deriving DecidableEq

/-- `struct TrackerStreakAccount { user, tracker_id, streak, last_streak_date, longest_streak, longest_streak_date }` -/
structure TrackerStreakAccount where
  user : Nat
  tracker_id : Nat
  streak : Nat
  last_streak_date : Nat
  longest_streak : Nat
  longest_streak_date : Nat
deriving DecidableEq

/-- `enum TrackingError { InvalidTrackerId, TrackingDataAlreadyExists }` -/
inductive TrackingError where
  | InvalidTrackerId
  | TrackingDataAlreadyExists
deriving DecidableEq

/-- Zero-initialized `TrackingData` account (`init_if_needed` fresh state). -/
def defaultTrackingData : TrackingData := ⟨0, 0, []⟩

/-- Zero-initialized `TrackerStatsAccount` account. -/
def defaultStats : TrackerStatsAccount := ⟨0, 0, 0, 0⟩

/-- Zero-initialized `TrackerStatsList` account. -/
def defaultStatsList : TrackerStatsList := ⟨0, []⟩

/-- Zero-initialized `TrackerStreakAccount` account. -/
def defaultStreak : TrackerStreakAccount := ⟨0, 0, 0, 0, 0, 0⟩

/-- The on-chain state touched by `add_tracking_data`: one store per account
namespace, addressed by the derived seed byte strings. -/
structure World where
  trackingData : List (List Nat) → TrackingData
  trackerStats : List (List Nat) → TrackerStatsAccount
  statsList : List (List Nat) → TrackerStatsList
  streak : List (List Nat) → TrackerStreakAccount

/-- Point update of an account store. -/
def upd {α : Type} (f : List (List Nat) → α) (k : List (List Nat)) (v : α) :
    List (List Nat) → α :=
  fun j => if j = k then v else f j

/-- Genesis state: every account is zero-initialized. -/
def initialWorld : World :=
  ⟨fun _ => defaultTrackingData, fun _ => defaultStats,
   fun _ => defaultStatsList, fun _ => defaultStreak⟩

/-- `Iterator::position`: index of the first element satisfying `p`. -/
def position (p : Track → Bool) : List Track → Option Nat
  | [] => none
  | t :: ts => if p t then some 0 else (position p ts).map (fun n => n + 1)

/-- Insert a track into a descending-by-date list, before the first strictly
smaller date. -/
def insertDesc (t : Track) : List Track → List Track
  | [] => [t]
  | x :: xs => if x.date < t.date then t :: x :: xs else x :: insertDesc t xs

/-- Model of `tracks.sort_by(|a, b| b.date.cmp(&a.date))`: stable descending
sort by date (insertion sort; the ledger never holds two equal dates, so any
stable descending sort agrees with Rust's). -/
def sortDesc (l : List Track) : List Track :=
  l.foldr insertDesc []

/-- One `add_tracking_data` instruction call: the signer, the instruction
arguments, and the `tracker` account supplied by the caller (Anchor checks
only that its address matches its own stored title). -/
structure Ev where
  user : Nat
  tracker_id : Nat
  count : Nat
  date : Nat
  tracker : Tracker

/-- `let normalized_date = (date / 86400) * 86400;` -/
def normalizedDate (e : Ev) : Nat :=
  e.date / 86400 * 86400

/-- The `tracking_data` account after the `is_new_user` initialization
(lines setting `user` and `tracker_id` on a fresh account). -/
def ledger1 (w : World) (e : Ev) : TrackingData :=
  if (w.trackingData (trackingDataSeed e.user e.tracker_id)).user = 0 then
    { w.trackingData (trackingDataSeed e.user e.tracker_id) with
      user := e.user, tracker_id := e.tracker_id }
  else
    w.trackingData (trackingDataSeed e.user e.tracker_id)

/-- `tracking_data.tracks.iter().position(|t| t.date == normalized_date)` -/
def existingIndex (w : World) (e : Ev) : Option Nat :=
  position (fun t => t.date == normalizedDate e) (ledger1 w e).tracks

/-- The `tracking_data` account after pushing the new `Track` and re-sorting
descending by date. -/
def ledger2 (w : World) (e : Ev) : TrackingData :=
  { ledger1 w e with
    tracks := sortDesc ((ledger1 w e).tracks ++ [⟨normalizedDate e, e.count⟩]) }

/-- Reset branch of the stats update (`tracker_stats.date != normalized_date`):
store the new date and start the counters over. -/
def statsReset (ts : TrackerStatsAccount) (nd count : Nat) : TrackerStatsAccount :=
  { ts with date := nd, total_count := count, unique_users := 1 }

/-- Delta branch of the stats update (`existing_index = Some(index)`):
`total_count = total_count - tracks[index].count + count`, wrapping u32.
(Out-of-range indices read as a zero `Track`; the branch is dead code, see the
claim about its unreachability.) -/
def statsDelta (ts : TrackerStatsAccount) (tracks : List Track) (index count : Nat) :
    TrackerStatsAccount :=
  { ts with
    total_count :=
      (ts.total_count + (4294967296 - (tracks.getD index ⟨0, 0⟩).count % 4294967296)
        + count) % 4294967296 }

/-- Replace the first element satisfying `p` (model of `iter_mut().find`). -/
def updFirst (p : TrackerStatsAccount → Bool)
    (f : TrackerStatsAccount → TrackerStatsAccount) :
    List TrackerStatsAccount → List TrackerStatsAccount
  | [] => []
  | x :: xs => if p x then f x :: xs else x :: updFirst p f xs

/-- The `tracker_stats` / `tracker_stats_list` update of `add_tracking_data`,
parameterized by the reset branch and the delta branch so that their
reachability can be stated.  Mirrors the source: an all-zero stats account is
initialized to `(count, 1)`; otherwise a differing stored date resets the
stats, an existing ledger index applies the count delta, and a new entry adds
`count` and one unique user; finally the list entry for the date is updated in
place or appended. -/
def statsUpdate (resetFn : TrackerStatsAccount → Nat → Nat → TrackerStatsAccount)
    (deltaFn : TrackerStatsAccount → List Track → Nat → Nat → TrackerStatsAccount)
    (ts0 : TrackerStatsAccount) (tsl1 : TrackerStatsList)
    (existing : Option Nat) (tracks : List Track) (tid nd count : Nat) :
    TrackerStatsAccount × TrackerStatsList :=
  if ts0.tracker_id = 0 ∧ ts0.date = 0 then
    let ts1 : TrackerStatsAccount := ⟨tid, nd, count, 1⟩
    let tsl2 :=
      if tsl1.stats.any (fun s => s.date == nd) then tsl1
      else { tsl1 with stats := tsl1.stats ++ [⟨tid, nd, count, 1⟩] }
    (ts1, tsl2)
  else
    let ts1 :=
      if ts0.date ≠ nd then resetFn ts0 nd count
      else
        match existing with
        | some index => deltaFn ts0 tracks index count
        | none =>
          { ts0 with
            total_count := (ts0.total_count + count) % 4294967296,
            unique_users := (ts0.unique_users + 1) % 4294967296 }
    let tsl2 :=
      if tsl1.stats.any (fun s => s.date == nd) then
        { tsl1 with
          stats := updFirst (fun s => s.date == nd)
            (fun s => { s with total_count := ts1.total_count,
                               unique_users := ts1.unique_users }) tsl1.stats }
      else
        { tsl1 with stats := tsl1.stats ++ [⟨tid, nd, ts1.total_count, ts1.unique_users⟩] }
    (ts1, tsl2)

/-- The streak update of `add_tracking_data`.  A fresh account (default user)
is initialized to a streak of 1; a same-day event leaves the account unchanged
(the source returns `Ok(())` early); otherwise the source's if/else-if chain
runs and `last_streak_date` is set to the incoming normalized date.  The
`+ 86400` on `u64` and `+ 1` on `u32` wrap. -/
def streakUpdate (st : TrackerStreakAccount) (user tid nd count : Nat) :
    TrackerStreakAccount :=
  if st.user = 0 then
    ⟨user, tid, 1, nd, 1, nd⟩
  else if nd = st.last_streak_date then
    st
  else
    let st1 :=
      if nd = (st.last_streak_date + 86400) % 18446744073709551616 ∧ 0 < count then
        if st.longest_streak < (st.streak + 1) % 4294967296 then
          { st with
            streak := (st.streak + 1) % 4294967296,
            longest_streak := (st.streak + 1) % 4294967296,
            longest_streak_date := nd }
        else
          { st with streak := (st.streak + 1) % 4294967296 }
      else if (st.last_streak_date + 86400) % 18446744073709551616 < nd then
        { st with streak := 1 }
      else if count = 0 then
        { st with streak := 0 }
      else
        st
    { st1 with last_streak_date := nd }

/-- The successful-path result of `add_tracking_data`: all four accounts are
written back at their derived addresses (Anchor persists every mutated account
when the instruction returns `Ok`). -/
def nextWorld (resetFn : TrackerStatsAccount → Nat → Nat → TrackerStatsAccount)
    (deltaFn : TrackerStatsAccount → List Track → Nat → Nat → TrackerStatsAccount)
    (w : World) (e : Ev) : World :=
  let nd := normalizedDate e
  let tdSeed := trackingDataSeed e.user e.tracker_id
  let tsSeed := trackerStatsSeed e.tracker_id e.date
  let tslSeed := trackerStatsListSeed e.tracker_id
  let stSeed := trackerStreakSeed e.user e.tracker_id
  let tsl0 := w.statsList tslSeed
  let tsl1 := if tsl0.tracker_id = 0 then { tsl0 with tracker_id := e.tracker_id } else tsl0
  let p := statsUpdate resetFn deltaFn (w.trackerStats tsSeed) tsl1
    (existingIndex w e) (ledger2 w e).tracks e.tracker_id nd e.count
  { trackingData := upd w.trackingData tdSeed (ledger2 w e),
    trackerStats := upd w.trackerStats tsSeed p.1,
    statsList := upd w.statsList tslSeed p.2,
    streak := upd w.streak stSeed (streakUpdate (w.streak stSeed) e.user e.tracker_id nd e.count) }

/-- `add_tracking_data`, parameterized by the two stats branches.  The
`require!(tracker.id == tracker_id)` check fails first; an existing ledger
entry for the normalized date fails next (before any mutation persists: a
failed Anchor instruction rolls the whole transaction back); otherwise all
four records are updated. -/
def add_core (resetFn : TrackerStatsAccount → Nat → Nat → TrackerStatsAccount)
    (deltaFn : TrackerStatsAccount → List Track → Nat → Nat → TrackerStatsAccount)
    (w : World) (e : Ev) : Except TrackingError World :=
  if e.tracker.id ≠ e.tracker_id then .error .InvalidTrackerId
  else if (existingIndex w e).isSome then .error .TrackingDataAlreadyExists
  else .ok (nextWorld resetFn deltaFn w e)

/-- `add_tracking_data` as written in the source. -/
def add_tracking_data (w : World) (e : Ev) : Except TrackingError World :=
  add_core statsReset statsDelta w e

/-- Transaction semantics for a parameterized instruction: a failing
instruction leaves the chain state unchanged. -/
def stepWith (resetFn : TrackerStatsAccount → Nat → Nat → TrackerStatsAccount)
    (deltaFn : TrackerStatsAccount → List Track → Nat → Nat → TrackerStatsAccount)
    (w : World) (e : Ev) : World :=
  match add_core resetFn deltaFn w e with
  | .ok w2 => w2
  | .error _ => w

/-- Transaction semantics of the source `add_tracking_data`. -/
def step (w : World) (e : Ev) : World :=
  stepWith statsReset statsDelta w e

/-- Run a sequence of `add_tracking_data` transactions from genesis. -/
def run (es : List Ev) : World :=
  es.foldl step initialWorld

/-- Whether an instruction result is a success. -/
def isOk (r : Except TrackingError World) : Bool :=
  match r with
  | .ok _ => true
  | .error _ => false

/-- `get_tracker_stats` view function: loads the stats account at the derived
address, requires its stored `tracker_id` and (normalized) `date` to match,
and returns the counters (zeros for a never-initialized account). -/
def get_tracker_stats (w : World) (tracker_id date : Nat) :
    Except TrackingError TrackerStats :=
  let ts := w.trackerStats (trackerStatsSeed tracker_id date)
  if ts.tracker_id ≠ tracker_id then .error .InvalidTrackerId
  else
    let nd := date / 86400 * 86400
    if ts.date ≠ nd then .error .InvalidTrackerId
    else if ts.tracker_id = 0 ∧ ts.date = 0 then .ok ⟨0, 0⟩
    else .ok ⟨ts.total_count, ts.unique_users⟩

/-- `get_all_tracker_stats` view function: loads the list account at the
derived address, requires the stored `tracker_id` to match, and returns the
mirrored snapshots. -/
def get_all_tracker_stats (w : World) (tracker_id : Nat) :
    Except TrackingError (List TrackerStatsAccount) :=
  let tsl := w.statsList (trackerStatsListSeed tracker_id)
  if tsl.tracker_id ≠ tracker_id then .error .InvalidTrackerId
  else .ok tsl.stats

/-- `create_tracker`: the tracker record stores
`id = tracker PDA first byte as u32`.  The PDA is a SHA-256 based hash of
`[b"tracker", title.as_bytes()]`; its first byte is abstracted as an arbitrary
function `keyByte0` of the title, which every concrete hash instantiates. -/
def create_tracker (keyByte0 : String → Fin 256) (title description : String) : Tracker :=
  ⟨(keyByte0 title).val, title, description⟩

/-- Titles used to exhibit tracker-id collisions: `i` repetitions of `a`
(pairwise distinct strings). -/
def titleOf (i : Nat) : String :=
  String.mk (List.replicate i 'a')

/-- Total count recorded in a ledger for one normalized day. -/
def dayCount (tracks : List Track) (day : Nat) : Nat :=
  (tracks.filter (fun t => t.date == day)).foldl (fun a t => a + t.count) 0

/-- A tracker account whose stored id is 1 (as produced by `create_tracker`
for any title whose PDA starts with byte 1). -/
def theTracker : Tracker := ⟨1, "t", "d"⟩

/-- Day-alias trace: user 7 records on normalized day 0 and then on normalized
day 172800 (= 2 days).  Both days have low byte 0, so the two
`tracker_stats` addresses coincide. -/
def evA1 : Ev := ⟨7, 1, 5, 0, theTracker⟩

/-- Second event of the day-alias trace (day 172800, count 7). -/
def evA2 : Ev := ⟨7, 1, 7, 172800, theTracker⟩

/-- World after the first day-alias event. -/
def wA1 : World := step initialWorld evA1

/-- World after both day-alias events. -/
def wA2 : World := step wA1 evA2

/-- Backdated trace: user 7 records on day 172800 first, then on day 0. -/
def evB1 : Ev := ⟨7, 1, 5, 172800, theTracker⟩

/-- Second event of the backdated trace (day 0, earlier than the stored
`last_streak_date`). -/
def evB2 : Ev := ⟨7, 1, 5, 0, theTracker⟩

/-- World after the first backdated-trace event. -/
def wB1 : World := step initialWorld evB1

/-- Sentinel replacement for the stats reset branch, used to observe whether
that branch executes. -/
def sentinelReset : TrackerStatsAccount → Nat → Nat → TrackerStatsAccount :=
  fun _ _ _ => ⟨999, 999, 999, 999⟩

/-- Duplicate event: raw date 50 normalizes to day 0, the day already present
in `wA1`'s ledger. -/
def evDup : Ev := ⟨7, 1, 9, 50, theTracker⟩

/-- Streak-account invariant maintained by `add_tracking_data`: the current
streak never exceeds the longest streak, an initialized account (nonzero user)
has a longest streak of at least 1, and an account still holding the default
user has a longest streak of at most 1. -/
def streakInv (st : TrackerStreakAccount) : Prop :=
  st.streak ≤ st.longest_streak ∧ (st.user ≠ 0 → 1 ≤ st.longest_streak) ∧
    (st.user = 0 → st.longest_streak ≤ 1)

theorem upd_same {α : Type} (f : List (List Nat) → α) (k : List (List Nat)) (v : α) :
    upd f k v k = v := by
  simp [upd]

theorem upd_ne {α : Type} (f : List (List Nat) → α) (k : List (List Nat)) (v : α)
    (j : List (List Nat)) (h : j ≠ k) : upd f k v j = f j := by
  simp [upd, h]

theorem position_eq_none_iff (p : Track → Bool) (l : List Track) :
    position p l = none ↔ ∀ t ∈ l, p t = false := by
  induction l with
  | nil => simp [position]
  | cons x xs ih =>
    by_cases h : p x <;> simp [position, h, ih]

theorem position_isSome_iff (p : Track → Bool) (l : List Track) :
    (position p l).isSome = true ↔ ∃ t ∈ l, p t = true := by
  induction l with
  | nil => simp [position]
  | cons x xs ih =>
    by_cases h : p x <;> simp [position, h, ih]

theorem ledger1_tracks (w : World) (e : Ev) :
    (ledger1 w e).tracks = (w.trackingData (trackingDataSeed e.user e.tracker_id)).tracks := by
  unfold ledger1
  split <;> rfl

theorem nextWorld_streak
    (rf : TrackerStatsAccount → Nat → Nat → TrackerStatsAccount)
    (df : TrackerStatsAccount → List Track → Nat → Nat → TrackerStatsAccount)
    (w : World) (e : Ev) :
    (nextWorld rf df w e).streak =
      upd w.streak (trackerStreakSeed e.user e.tracker_id)
        (streakUpdate (w.streak (trackerStreakSeed e.user e.tracker_id))
          e.user e.tracker_id (normalizedDate e) e.count) := rfl

theorem nextWorld_trackingData
    (rf : TrackerStatsAccount → Nat → Nat → TrackerStatsAccount)
    (df : TrackerStatsAccount → List Track → Nat → Nat → TrackerStatsAccount)
    (w : World) (e : Ev) :
    (nextWorld rf df w e).trackingData =
      upd w.trackingData (trackingDataSeed e.user e.tracker_id) (ledger2 w e) := rfl

theorem step_ok (w : World) (e : Ev) (hid : e.tracker.id = e.tracker_id)
    (hdup : existingIndex w e = none) :
    step w e = nextWorld statsReset statsDelta w e := by
  unfold step stepWith add_core
  simp [hid, hdup]

theorem step_cases (w : World) (e : Ev) :
    step w e = w ∨ step w e = nextWorld statsReset statsDelta w e := by
  unfold step stepWith add_core
  by_cases h1 : e.tracker.id ≠ e.tracker_id
  · left; simp [h1]
  · by_cases h2 : (existingIndex w e).isSome
    · left; simp [h1, h2]
    · right; simp [h1, h2]

theorem existingIndex_eq_none_fields (w : World) (u tid c dt : Nat) (tr : Tracker)
    (h : ∀ t ∈ (w.trackingData (trackingDataSeed u tid)).tracks,
      t.date ≠ dt / 86400 * 86400) :
    existingIndex w ⟨u, tid, c, dt, tr⟩ = none := by
  rw [existingIndex, position_eq_none_iff]
  intro t ht
  rw [ledger1_tracks] at ht
  simpa [normalizedDate] using h t ht

theorem step_fields (w : World) (u tid c dt : Nat) (tr : Tracker)
    (hid : tr.id = tid) (hdup : existingIndex w ⟨u, tid, c, dt, tr⟩ = none) :
    (step w ⟨u, tid, c, dt, tr⟩).streak =
      upd w.streak (trackerStreakSeed u tid)
        (streakUpdate (w.streak (trackerStreakSeed u tid)) u tid (dt / 86400 * 86400) c) ∧
    (step w ⟨u, tid, c, dt, tr⟩).trackingData =
      upd w.trackingData (trackingDataSeed u tid)
        { ledger1 w ⟨u, tid, c, dt, tr⟩ with
          tracks := sortDesc
            ((ledger1 w ⟨u, tid, c, dt, tr⟩).tracks ++ [⟨dt / 86400 * 86400, c⟩]) } := by
  rw [step_ok w ⟨u, tid, c, dt, tr⟩ hid hdup]
  exact ⟨rfl, rfl⟩

theorem ledger1_of_user_ne (w : World) (u tid c dt : Nat) (tr : Tracker)
    (hne : (w.trackingData (trackingDataSeed u tid)).user ≠ 0) :
    ledger1 w ⟨u, tid, c, dt, tr⟩ = w.trackingData (trackingDataSeed u tid) := by
  unfold ledger1
  exact if_neg hne

theorem streakUpdate_init (st : TrackerStreakAccount) (u t nd c : Nat)
    (h : st.user = 0) :
    streakUpdate st u t nd c = ⟨u, t, 1, nd, 1, nd⟩ := by
  unfold streakUpdate
  rw [if_pos h]

theorem streakUpdate_next (st : TrackerStreakAccount) (u t nd c : Nat)
    (hu : st.user ≠ 0) (hw : st.last_streak_date + 86400 < 18446744073709551616)
    (hnd : nd = st.last_streak_date + 86400) (hc : 0 < c)
    (hlong : st.longest_streak < st.streak + 1) (hs : st.streak + 1 < 4294967296) :
    streakUpdate st u t nd c =
      { st with
        streak := st.streak + 1, longest_streak := st.streak + 1,
        longest_streak_date := nd, last_streak_date := nd } := by
  unfold streakUpdate
  rw [if_neg hu, if_neg (by omega), Nat.mod_eq_of_lt hw, if_pos ⟨hnd, hc⟩,
    Nat.mod_eq_of_lt hs, if_pos hlong]

theorem streakUpdate_gap (st : TrackerStreakAccount) (u t nd c : Nat)
    (hu : st.user ≠ 0) (hw : st.last_streak_date + 86400 < 18446744073709551616)
    (hgt : st.last_streak_date + 86400 < nd) :
    streakUpdate st u t nd c = { st with streak := 1, last_streak_date := nd } := by
  unfold streakUpdate
  rw [if_neg hu, if_neg (by omega), Nat.mod_eq_of_lt hw,
    if_neg (by rintro ⟨h1, h2⟩; omega), if_pos hgt]

theorem streakInv_update (st : TrackerStreakAccount) (u t nd c : Nat)
    (h : streakInv st) : streakInv (streakUpdate st u t nd c) := by
  obtain ⟨h1, h2, h3⟩ := h
  unfold streakInv streakUpdate
  split_ifs with hz hsame hnext hgap hzero <;>
    simp_all <;> omega

theorem streakUpdate_longest_mono (st : TrackerStreakAccount) (u t nd c : Nat)
    (h3 : st.user = 0 → st.longest_streak ≤ 1) :
    st.longest_streak ≤ (streakUpdate st u t nd c).longest_streak := by
  unfold streakUpdate
  split_ifs with hz hsame hnext hgap hzero <;> simp_all <;> omega

theorem streakUpdate_last_mono (st : TrackerStreakAccount) (u t nd c : Nat)
    (h : st.last_streak_date ≤ nd) :
    st.last_streak_date ≤ (streakUpdate st u t nd c).last_streak_date := by
  unfold streakUpdate
  split_ifs with hz hsame hnext hgap hzero <;> simp_all

theorem step_streakInv (w : World) (e : Ev)
    (h : ∀ s, streakInv (w.streak s)) :
    ∀ s, streakInv ((step w e).streak s) := by
  rcases step_cases w e with hc | hc <;> rw [hc]
  · exact h
  · intro s
    rw [nextWorld_streak]
    by_cases hs : s = trackerStreakSeed e.user e.tracker_id
    · rw [hs, upd_same]
      exact streakInv_update _ _ _ _ _ (h _)
    · rw [upd_ne _ _ _ _ hs]
      exact h s

theorem initial_streakInv : ∀ s, streakInv (initialWorld.streak s) := by
  intro s
  simp [initialWorld, defaultStreak, streakInv]

theorem insertDesc_nil (t : Track) : insertDesc t [] = [t] := rfl

theorem insertDesc_cons_lt (t x : Track) (xs : List Track) (h : x.date < t.date) :
    insertDesc t (x :: xs) = t :: x :: xs := by
  show (if x.date < t.date then t :: x :: xs else x :: insertDesc t xs) = t :: x :: xs
  rw [if_pos h]

theorem insertDesc_cons_ge (t x : Track) (xs : List Track) (h : ¬ x.date < t.date) :
    insertDesc t (x :: xs) = x :: insertDesc t xs := by
  show (if x.date < t.date then t :: x :: xs else x :: insertDesc t xs) = x :: insertDesc t xs
  rw [if_neg h]

theorem statsUpdate_none_irrel
    (rf : TrackerStatsAccount → Nat → Nat → TrackerStatsAccount)
    (df df2 : TrackerStatsAccount → List Track → Nat → Nat → TrackerStatsAccount)
    (ts : TrackerStatsAccount) (tsl : TrackerStatsList)
    (tracks : List Track) (tid nd c : Nat) :
    statsUpdate rf df ts tsl none tracks tid nd c =
      statsUpdate rf df2 ts tsl none tracks tid nd c := rfl

theorem run_streakInv (es : List Ev) : ∀ s, streakInv ((run es).streak s) := by
  rw [run]
  have haux : ∀ (l : List Ev) (w : World), (∀ s, streakInv (w.streak s)) →
      ∀ s, streakInv ((l.foldl step w).streak s) := by
    intro l
    induction l with
    | nil => intro w h; simpa using h
    | cons e es ih => intro w h; exact ih (step w e) (step_streakInv w e h)
  exact haux es initialWorld initial_streakInv

/-- Claim C1: address derivation is NOT injective per namespace — the code
truncates the `u32` tracker id (and the `u64` normalized day) to its low byte
repeated 13 (or 18) times, so tracker ids 1 and 257 derive identical seed byte
strings in every namespace, and normalized days 0 and 172800 derive identical
`tracker_stats` seeds.  This refutes the claimed full-width, collision-free
encoding (code bug: the spec flags exactly this truncation as a defect). -/
theorem C1_seed_derivation_collides :
    trackingDataSeed 7 1 = trackingDataSeed 7 257 ∧
    trackerStreakSeed 7 1 = trackerStreakSeed 7 257 ∧
    trackerStatsListSeed 1 = trackerStatsListSeed 257 ∧
    trackerStatsSeed 1 0 = trackerStatsSeed 1 172800 ∧
    (1 : Nat) ≠ 257 ∧ (0 : Nat) ≠ 172800 := by
  refine ⟨rfl, rfl, rfl, rfl, by decide, by decide⟩

/-- Claim C2: the reset branch (`tracker_stats.date != normalized_date`) IS
reachable, refuting the claim that it is dead code.  After recording day 0,
an accepted event on day 172800 (same low byte, hence the same
`tracker_stats` address) loads the day-0 aggregate, sees `date = 0 ≠ 172800`,
and runs the reset branch: the final stats are the reset values, and replacing
the reset branch by a sentinel changes the outcome, so the branch executed. -/
theorem C2_reset_branch_reached :
    isOk (add_tracking_data wA1 evA2) = true ∧
    (step wA1 evA2).trackerStats (trackerStatsSeed 1 172800) = ⟨1, 172800, 7, 1⟩ ∧
    (stepWith sentinelReset statsDelta wA1 evA2).trackerStats
      (trackerStatsSeed 1 172800) = ⟨999, 999, 999, 999⟩ := by
  refine ⟨rfl, rfl, rfl⟩

/-- Claim C3: after the accepted events (tracker 1, day 0, count 5) and
(tracker 1, day 172800, count 7) by owner 7, the owner's ledger entries for
normalized day 0 sum to 5, but the `DailyAggregate` account addressed by
(tracker 1, day 0) holds `total_count = 7` and stored day 172800: the
aggregate no longer matches the ledger sum for (tracker, day), refuting the
claimed invariant (code bug: day-truncated addressing aliases the two days). -/
theorem C3_aggregate_sum_violated :
    dayCount ((wA2.trackingData (trackingDataSeed 7 1)).tracks) 0 = 5 ∧
    wA2.trackerStats (trackerStatsSeed 1 0) = ⟨1, 172800, 7, 1⟩ ∧
    (7 : Nat) ≠ 5 := by
  refine ⟨rfl, rfl, by decide⟩

/-- Claim C4: a backdated event (normalized day 0 while the streak record
holds `last_streak_date = 172800`) is ACCEPTED by `add_tracking_data` — there
is no `OutOfOrderDate` error in the program — and it mutates state: the
ledger gains the day-0 entry and `last_streak_date` moves backward to 0.
This refutes the claimed reject-with-`OutOfOrderDate` behavior (code bug:
the spec demands explicit rejection). -/
theorem C4_backdated_event_accepted :
    isOk (add_tracking_data wB1 evB2) = true ∧
    (wB1.trackingData (trackingDataSeed 7 1)).tracks = [⟨172800, 5⟩] ∧
    ((step wB1 evB2).trackingData (trackingDataSeed 7 1)).tracks =
      [⟨172800, 5⟩, ⟨0, 5⟩] ∧
    ((step wB1 evB2).streak (trackerStreakSeed 7 1)).last_streak_date = 0 := by
  refine ⟨rfl, rfl, rfl, rfl⟩

/-- Claim C5 (counterexample): an accepted backdated event decreases
`last_streak_date` — after recording day 172800, recording day 0 is accepted
and moves `last_streak_date` from 172800 down to 0, so the claimed
non-decrease across successive accepted calls fails as stated. -/
theorem C5_last_date_decreases :
    isOk (add_tracking_data wB1 evB2) = true ∧
    (wB1.streak (trackerStreakSeed 7 1)).last_streak_date = 172800 ∧
    ((step wB1 evB2).streak (trackerStreakSeed 7 1)).last_streak_date = 0 ∧
    (0 : Nat) < 172800 := by
  refine ⟨rfl, rfl, rfl, by decide⟩

/-- Claim C8: the aggregate index diverges from the live aggregates.  After
recording days 0 and 172800 for tracker 1 (whose `tracker_stats` addresses
alias), `get_all_tracker_stats` reports an entry for day 0 with totals (5, 1),
but `get_tracker_stats` for (tracker 1, day 0) fails — the live aggregate
account now stores day 172800 — so the index does not match the live values,
refuting the claimed consistency (code bug: day-truncated addressing). -/
theorem C8_index_diverges_from_live :
    get_all_tracker_stats wA2 1 = .ok [⟨1, 0, 5, 1⟩, ⟨1, 172800, 7, 1⟩] ∧
    get_tracker_stats wA2 1 0 = .error .InvalidTrackerId ∧
    get_tracker_stats wA2 1 172800 = .ok ⟨7, 1⟩ := by
  refine ⟨rfl, rfl, rfl⟩

/-- Claim C7: under the strict duplicate-date policy, if the owner's ledger
already holds an entry for the event's normalized day (and the supplied
tracker account matches the id, so the duplicate check is reached), then
`add_tracking_data` fails with `TrackingDataAlreadyExists` and the transaction
leaves the whole state unchanged. -/
theorem C7_duplicate_rejected (w : World) (e : Ev)
    (hid : e.tracker.id = e.tracker_id)
    (hdup : ∃ t ∈ (w.trackingData (trackingDataSeed e.user e.tracker_id)).tracks,
      t.date = normalizedDate e) :
    add_tracking_data w e = .error .TrackingDataAlreadyExists ∧ step w e = w := by
  have hsome : (existingIndex w e).isSome = true := by
    rw [existingIndex, position_isSome_iff]
    obtain ⟨t, ht, hd⟩ := hdup
    exact ⟨t, by rw [ledger1_tracks]; exact ht, by simp [hd]⟩
  constructor
  · unfold add_tracking_data add_core
    simp [hid, hsome]
  · unfold step stepWith add_core
    simp [hid, hsome]

/-- Witness for C7: the ledger of `wA1` holds day 0; an event with raw date 50
(which normalizes to day 0) is rejected with `TrackingDataAlreadyExists` and
changes nothing. -/
theorem C7_duplicate_rejected_witness :
    add_tracking_data wA1 evDup = .error .TrackingDataAlreadyExists ∧
    step wA1 evDup = wA1 :=
  C7_duplicate_rejected wA1 evDup rfl ⟨⟨0, 5⟩, by decide, by decide⟩

/-- Claim C10: the stats branch for an existing ledger entry (the
`existing_index = Some` delta update, `total_count - old + new`) is
unreachable: replacing it by ANY function yields a program with identical
behavior on every state and event, because an existing entry for the
normalized day makes `add_tracking_data` return `TrackingDataAlreadyExists`
before the stats update runs. -/
theorem C10_delta_branch_unreachable
    (deltaFn : TrackerStatsAccount → List Track → Nat → Nat → TrackerStatsAccount)
    (w : World) (e : Ev) :
    add_core statsReset deltaFn w e = add_tracking_data w e := by
  unfold add_tracking_data add_core
  by_cases h1 : e.tracker.id ≠ e.tracker_id
  · simp [h1]
  · by_cases h2 : (existingIndex w e).isSome
    · simp [h1, h2]
    · have hnone : existingIndex w e = none := by
        rcases hx : existingIndex w e with _ | n
        · rfl
        · rw [hx] at h2
          simp at h2
      have hnext : nextWorld statsReset deltaFn w e = nextWorld statsReset statsDelta w e := by
        unfold nextWorld
        rw [hnone]
        simp only [statsUpdate_none_irrel statsReset deltaFn statsDelta]
      simp [h1, h2, hnext]

/-- Claim C9: tracker ids collide.  `create_tracker` stores
`id = first byte of the tracker PDA as u32`, a value below 256, so whatever
the address derivation function is, among the 257 pairwise-distinct titles
`titleOf 0 .. titleOf 256` two distinct titles receive the same id —
refuting the claimed uniqueness (code bug: the spec forbids deriving the id
from one byte of an address). -/
theorem C9_tracker_ids_collide (keyByte0 : String → Fin 256) :
    ∃ t1 t2 : String, t1 ≠ t2 ∧
      (create_tracker keyByte0 t1 "x").id = (create_tracker keyByte0 t2 "x").id := by
  have hninj : ¬ Function.Injective (fun i : Fin 257 => keyByte0 (titleOf i.val)) := by
    intro hinj
    have hcard := Fintype.card_le_of_injective _ hinj
    rw [Fintype.card_fin, Fintype.card_fin] at hcard
    omega
  rw [Function.not_injective_iff] at hninj
  obtain ⟨i, j, heq, hne⟩ := hninj
  refine ⟨titleOf i.val, titleOf j.val, ?_, ?_⟩
  · intro hcontra
    apply hne
    have hdata : List.replicate i.val 'a' = List.replicate j.val 'a' := by
      have hmk := congrArg String.data hcontra
      simpa [titleOf] using hmk
    have hlen := congrArg List.length hdata
    simp at hlen
    exact Fin.ext hlen
  · simpa [create_tracker] using congrArg Fin.val heq

/-- Claim C5 (amended): after every sequence of `add_tracking_data`
transactions, every streak account satisfies `0 ≤ streak` and
`streak ≤ longest_streak`; `longest_streak` never decreases over a further
transaction from a reachable state; and `last_streak_date` is non-decreasing
over every transaction whose normalized day is at least the stored
`last_streak_date` of the event's own streak account.  (The unconditional
non-decrease claimed by the spec fails only because the code accepts
backdated events; see the counterexample.) -/
theorem C5_streak_invariant_amended :
    (∀ (es : List Ev) (s : List (List Nat)),
      0 ≤ ((run es).streak s).streak ∧
      ((run es).streak s).streak ≤ ((run es).streak s).longest_streak) ∧
    (∀ (es : List Ev) (e : Ev) (s : List (List Nat)),
      ((run es).streak s).longest_streak ≤
        ((step (run es) e).streak s).longest_streak) ∧
    (∀ (w : World) (e : Ev) (s : List (List Nat)),
      (w.streak (trackerStreakSeed e.user e.tracker_id)).last_streak_date ≤
        normalizedDate e →
      (w.streak s).last_streak_date ≤ ((step w e).streak s).last_streak_date) := by
  refine ⟨?_, ?_, ?_⟩
  · intro es s
    exact ⟨Nat.zero_le _, (run_streakInv es s).1⟩
  · intro es e s
    rcases step_cases (run es) e with hc | hc
    · rw [hc]
    · rw [hc, nextWorld_streak]
      by_cases hs : s = trackerStreakSeed e.user e.tracker_id
      · rw [hs, upd_same]
        exact streakUpdate_longest_mono _ _ _ _ _ (run_streakInv es _).2.2
      · rw [upd_ne _ _ _ _ hs]
  · intro w e s h
    rcases step_cases w e with hc | hc
    · rw [hc]
    · rw [hc, nextWorld_streak]
      by_cases hs : s = trackerStreakSeed e.user e.tracker_id
      · rw [hs, upd_same]
        exact streakUpdate_last_mono _ _ _ _ _ h
      · rw [upd_ne _ _ _ _ hs]

/-- Witness for the amended C5: all three parts applied to concrete inputs
(one-event run, a further event, and a first event from genesis whose
normalized day is at least the stored zero `last_streak_date`). -/
theorem C5_streak_invariant_amended_witness :
    (0 ≤ ((run [evA1]).streak (trackerStreakSeed 7 1)).streak ∧
      ((run [evA1]).streak (trackerStreakSeed 7 1)).streak ≤
        ((run [evA1]).streak (trackerStreakSeed 7 1)).longest_streak) ∧
    ((run [evA1]).streak (trackerStreakSeed 7 1)).longest_streak ≤
      ((step (run [evA1]) evA2).streak (trackerStreakSeed 7 1)).longest_streak ∧
    (initialWorld.streak (trackerStreakSeed 7 1)).last_streak_date ≤
      ((step initialWorld evA1).streak (trackerStreakSeed 7 1)).last_streak_date :=
  ⟨C5_streak_invariant_amended.1 [evA1] (trackerStreakSeed 7 1),
   C5_streak_invariant_amended.2.1 [evA1] evA2 (trackerStreakSeed 7 1),
   C5_streak_invariant_amended.2.2 initialWorld evA1 (trackerStreakSeed 7 1) (by decide)⟩

/-- Claim C6: for every owner (a real signer, so a nonzero key), tracker id,
tracker account matching that id, and normalized day `d` with the whole
scenario inside the u64 range, recording count-5 events on days `d`, `d+1`,
`d+2` yields streak 3 and longest streak 3, and a further event on day `d+4`
(skipping `d+3`) resets the streak to 1 while the longest streak stays 3. -/
theorem C6_streak_growth_and_reset (u tid d : Nat) (tr : Tracker)
    (hu : u ≠ 0) (hid : tr.id = tid) (hd : d % 86400 = 0)
    (hb : d + 4 * 86400 < 18446744073709551616) :
    ((run [⟨u, tid, 5, d, tr⟩, ⟨u, tid, 5, d + 86400, tr⟩,
        ⟨u, tid, 5, d + 2 * 86400, tr⟩]).streak (trackerStreakSeed u tid)).streak = 3 ∧
    ((run [⟨u, tid, 5, d, tr⟩, ⟨u, tid, 5, d + 86400, tr⟩,
        ⟨u, tid, 5, d + 2 * 86400, tr⟩]).streak
        (trackerStreakSeed u tid)).longest_streak = 3 ∧
    ((run [⟨u, tid, 5, d, tr⟩, ⟨u, tid, 5, d + 86400, tr⟩,
        ⟨u, tid, 5, d + 2 * 86400, tr⟩,
        ⟨u, tid, 5, d + 4 * 86400, tr⟩]).streak (trackerStreakSeed u tid)).streak = 1 ∧
    ((run [⟨u, tid, 5, d, tr⟩, ⟨u, tid, 5, d + 86400, tr⟩,
        ⟨u, tid, 5, d + 2 * 86400, tr⟩,
        ⟨u, tid, 5, d + 4 * 86400, tr⟩]).streak
        (trackerStreakSeed u tid)).longest_streak = 3 := by
  have hnd0 : d / 86400 * 86400 = d := by omega
  have hnd1 : (d + 86400) / 86400 * 86400 = d + 86400 := by omega
  have hnd2 : (d + 2 * 86400) / 86400 * 86400 = d + 2 * 86400 := by omega
  have hnd4 : (d + 4 * 86400) / 86400 * 86400 = d + 4 * 86400 := by omega
  have hlt1 : ¬ (d + 86400 < d) := by omega
  have hlt2 : ¬ (d + 2 * 86400 < d) := by omega
  have hlt3 : ¬ (d + 2 * 86400 < d + 86400) := by omega
  have hlt4 : d < d + 86400 := by omega
  have hex1 : existingIndex initialWorld ⟨u, tid, 5, d, tr⟩ = none := by
    apply existingIndex_eq_none_fields
    intro t ht
    simp [initialWorld, defaultTrackingData] at ht
  have h1 := step_fields initialWorld u tid 5 d tr hid hex1
  have htd1 : (step initialWorld ⟨u, tid, 5, d, tr⟩).trackingData
      (trackingDataSeed u tid) = ⟨u, tid, [⟨d, 5⟩]⟩ := by
    rw [h1.2, upd_same]
    simp [ledger1, initialWorld, defaultTrackingData, sortDesc, insertDesc, hnd0]
  have hst1 : (step initialWorld ⟨u, tid, 5, d, tr⟩).streak
      (trackerStreakSeed u tid) = ⟨u, tid, 1, d, 1, d⟩ := by
    rw [h1.1, upd_same,
      streakUpdate_init (initialWorld.streak (trackerStreakSeed u tid)) u tid
        (d / 86400 * 86400) 5 rfl, hnd0]
  have hex2 : existingIndex (step initialWorld ⟨u, tid, 5, d, tr⟩)
      ⟨u, tid, 5, d + 86400, tr⟩ = none := by
    apply existingIndex_eq_none_fields
    intro t ht
    rw [htd1] at ht
    simp at ht
    subst ht
    dsimp only
    omega
  have h2 := step_fields (step initialWorld ⟨u, tid, 5, d, tr⟩) u tid 5
    (d + 86400) tr hid hex2
  have htd2 : (step (step initialWorld ⟨u, tid, 5, d, tr⟩)
      ⟨u, tid, 5, d + 86400, tr⟩).trackingData (trackingDataSeed u tid) =
      ⟨u, tid, [⟨d + 86400, 5⟩, ⟨d, 5⟩]⟩ := by
    rw [h2.2, upd_same, hnd1,
      ledger1_of_user_ne _ u tid 5 (d + 86400) tr (by rw [htd1]; exact hu), htd1]
    show (⟨u, tid, insertDesc ⟨d, 5⟩ [⟨d + 86400, 5⟩]⟩ : TrackingData) =
      ⟨u, tid, [⟨d + 86400, 5⟩, ⟨d, 5⟩]⟩
    rw [insertDesc_cons_ge ⟨d, 5⟩ ⟨d + 86400, 5⟩ [] hlt1, insertDesc_nil]
  have hst2 : (step (step initialWorld ⟨u, tid, 5, d, tr⟩)
      ⟨u, tid, 5, d + 86400, tr⟩).streak (trackerStreakSeed u tid) =
      ⟨u, tid, 2, d + 86400, 2, d + 86400⟩ := by
    rw [h2.1, upd_same, hst1, hnd1,
      streakUpdate_next ⟨u, tid, 1, d, 1, d⟩ u tid (d + 86400) 5 hu
        (show d + 86400 < 18446744073709551616 by omega) rfl (by omega)
        (show (1 : Nat) < 1 + 1 by omega)
        (show (1 : Nat) + 1 < 4294967296 by omega)]
  have hex3 : existingIndex (step (step initialWorld ⟨u, tid, 5, d, tr⟩)
      ⟨u, tid, 5, d + 86400, tr⟩) ⟨u, tid, 5, d + 2 * 86400, tr⟩ = none := by
    apply existingIndex_eq_none_fields
    intro t ht
    rw [htd2] at ht
    simp at ht
    rcases ht with ht | ht <;> subst ht <;> dsimp only <;> omega
  have h3 := step_fields (step (step initialWorld ⟨u, tid, 5, d, tr⟩)
    ⟨u, tid, 5, d + 86400, tr⟩) u tid 5 (d + 2 * 86400) tr hid hex3
  have htd3 : (step (step (step initialWorld ⟨u, tid, 5, d, tr⟩)
      ⟨u, tid, 5, d + 86400, tr⟩) ⟨u, tid, 5, d + 2 * 86400, tr⟩).trackingData
      (trackingDataSeed u tid) =
      ⟨u, tid, [⟨d + 2 * 86400, 5⟩, ⟨d + 86400, 5⟩, ⟨d, 5⟩]⟩ := by
    rw [h3.2, upd_same, hnd2,
      ledger1_of_user_ne _ u tid 5 (d + 2 * 86400) tr (by rw [htd2]; exact hu), htd2]
    show (⟨u, tid, insertDesc ⟨d + 86400, 5⟩
        (insertDesc ⟨d, 5⟩ [⟨d + 2 * 86400, 5⟩])⟩ : TrackingData) =
      ⟨u, tid, [⟨d + 2 * 86400, 5⟩, ⟨d + 86400, 5⟩, ⟨d, 5⟩]⟩
    rw [insertDesc_cons_ge ⟨d, 5⟩ ⟨d + 2 * 86400, 5⟩ [] hlt2,
      insertDesc_cons_ge ⟨d + 86400, 5⟩ ⟨d + 2 * 86400, 5⟩ (insertDesc ⟨d, 5⟩ []) hlt3,
      insertDesc_nil, insertDesc_cons_lt ⟨d + 86400, 5⟩ ⟨d, 5⟩ [] hlt4]
  have hst3 : (step (step (step initialWorld ⟨u, tid, 5, d, tr⟩)
      ⟨u, tid, 5, d + 86400, tr⟩) ⟨u, tid, 5, d + 2 * 86400, tr⟩).streak
      (trackerStreakSeed u tid) =
      ⟨u, tid, 3, d + 2 * 86400, 3, d + 2 * 86400⟩ := by
    rw [h3.1, upd_same, hst2, hnd2,
      streakUpdate_next ⟨u, tid, 2, d + 86400, 2, d + 86400⟩ u tid
        (d + 2 * 86400) 5 hu
        (show d + 86400 + 86400 < 18446744073709551616 by omega)
        (show d + 2 * 86400 = d + 86400 + 86400 by omega) (by omega)
        (show (2 : Nat) < 2 + 1 by omega)
        (show (2 : Nat) + 1 < 4294967296 by omega)]
  have hex4 : existingIndex (step (step (step initialWorld ⟨u, tid, 5, d, tr⟩)
      ⟨u, tid, 5, d + 86400, tr⟩) ⟨u, tid, 5, d + 2 * 86400, tr⟩)
      ⟨u, tid, 5, d + 4 * 86400, tr⟩ = none := by
    apply existingIndex_eq_none_fields
    intro t ht
    rw [htd3] at ht
    simp at ht
    rcases ht with ht | ht | ht <;> subst ht <;> dsimp only <;> omega
  have h4 := step_fields (step (step (step initialWorld ⟨u, tid, 5, d, tr⟩)
    ⟨u, tid, 5, d + 86400, tr⟩) ⟨u, tid, 5, d + 2 * 86400, tr⟩) u tid 5
    (d + 4 * 86400) tr hid hex4
  have hst4 : (step (step (step (step initialWorld ⟨u, tid, 5, d, tr⟩)
      ⟨u, tid, 5, d + 86400, tr⟩) ⟨u, tid, 5, d + 2 * 86400, tr⟩)
      ⟨u, tid, 5, d + 4 * 86400, tr⟩).streak (trackerStreakSeed u tid) =
      ⟨u, tid, 1, d + 4 * 86400, 3, d + 2 * 86400⟩ := by
    rw [h4.1, upd_same, hst3, hnd4,
      streakUpdate_gap ⟨u, tid, 3, d + 2 * 86400, 3, d + 2 * 86400⟩ u tid
        (d + 4 * 86400) 5 hu
        (show d + 2 * 86400 + 86400 < 18446744073709551616 by omega)
        (show d + 2 * 86400 + 86400 < d + 4 * 86400 by omega)]
  refine ⟨?_, ?_, ?_, ?_⟩
  · show ((step (step (step initialWorld ⟨u, tid, 5, d, tr⟩)
      ⟨u, tid, 5, d + 86400, tr⟩) ⟨u, tid, 5, d + 2 * 86400, tr⟩).streak
      (trackerStreakSeed u tid)).streak = 3
    rw [hst3]
  · show ((step (step (step initialWorld ⟨u, tid, 5, d, tr⟩)
      ⟨u, tid, 5, d + 86400, tr⟩) ⟨u, tid, 5, d + 2 * 86400, tr⟩).streak
      (trackerStreakSeed u tid)).longest_streak = 3
    rw [hst3]
  · show ((step (step (step (step initialWorld ⟨u, tid, 5, d, tr⟩)
      ⟨u, tid, 5, d + 86400, tr⟩) ⟨u, tid, 5, d + 2 * 86400, tr⟩)
      ⟨u, tid, 5, d + 4 * 86400, tr⟩).streak (trackerStreakSeed u tid)).streak = 1
    rw [hst4]
  · show ((step (step (step (step initialWorld ⟨u, tid, 5, d, tr⟩)
      ⟨u, tid, 5, d + 86400, tr⟩) ⟨u, tid, 5, d + 2 * 86400, tr⟩)
      ⟨u, tid, 5, d + 4 * 86400, tr⟩).streak
      (trackerStreakSeed u tid)).longest_streak = 3
    rw [hst4]

/-- Witness for C6: the scenario instantiated at owner 7, tracker 1, day 0. -/
theorem C6_streak_growth_and_reset_witness :
    ((run [⟨7, 1, 5, 0, theTracker⟩, ⟨7, 1, 5, 0 + 86400, theTracker⟩,
        ⟨7, 1, 5, 0 + 2 * 86400, theTracker⟩]).streak (trackerStreakSeed 7 1)).streak = 3 ∧
    ((run [⟨7, 1, 5, 0, theTracker⟩, ⟨7, 1, 5, 0 + 86400, theTracker⟩,
        ⟨7, 1, 5, 0 + 2 * 86400, theTracker⟩]).streak
        (trackerStreakSeed 7 1)).longest_streak = 3 ∧
    ((run [⟨7, 1, 5, 0, theTracker⟩, ⟨7, 1, 5, 0 + 86400, theTracker⟩,
        ⟨7, 1, 5, 0 + 2 * 86400, theTracker⟩,
        ⟨7, 1, 5, 0 + 4 * 86400, theTracker⟩]).streak (trackerStreakSeed 7 1)).streak = 1 ∧
    ((run [⟨7, 1, 5, 0, theTracker⟩, ⟨7, 1, 5, 0 + 86400, theTracker⟩,
        ⟨7, 1, 5, 0 + 2 * 86400, theTracker⟩,
        ⟨7, 1, 5, 0 + 4 * 86400, theTracker⟩]).streak
        (trackerStreakSeed 7 1)).longest_streak = 3 :=
  C6_streak_growth_and_reset 7 1 0 theTracker (by decide) rfl (by decide) (by decide)

end Tracking
